import Mathlib

/-!
Verification development for the ts-ping probe library.

The definitions below are a shallow embedding of the library core:
output parsing into a discriminated result (`fromPingOutput`), error
classification (`determineErrorFromOutput`), packet-loss and timeout
arithmetic, the single-shot asynchronous runner with cancellation, the
streaming loop, and the `batchWithTimeout` stream combinator.

JavaScript numbers appearing in these code paths are modelled as `ℚ`
(all values involved are exact small decimals), `Math.round` as
`⌊x + 1/2⌋` (round half toward positive infinity) and `Math.ceil` as
`⌈x⌉`.  Regular-expression matching against the external tool output
is treated at its interface boundary: the extraction outcome of each
fixed pattern (packet statistics, summary timings, loss fallback,
per-reply lines) is an explicit input of the parser, so theorems
quantify over every possible match outcome.  Substring search used by
the error classifier (`String.prototype.includes` on the lowercased
text) is embedded executably on character lists.
-/

namespace TsPing

/-- Decides whether the first character list is a prefix of the second. -/
def charsStartWith : List Char → List Char → Bool
  | [], _ => true
  | _ :: _, [] => false
  | a :: as, b :: bs => a == b && charsStartWith as bs

/-- Decides whether `pat` occurs as a contiguous substring of `l`. -/
def charsContain (pat : List Char) : List Char → Bool
  | [] => charsStartWith pat []
  | c :: cs => charsStartWith pat (c :: cs) || charsContain pat cs

/-- Model of JavaScript `String.prototype.toLowerCase` (ASCII-faithful). -/
def jsToLower (s : String) : List Char := s.data.map Char.toLower

/-- Model of JavaScript `lower.includes(pat)` on an already-lowercased text. -/
def jsIncludes (l : List Char) (pat : String) : Bool := charsContain pat.data l

/-- Error taxonomy of `PingError` in ping-result.ts. -/
inductive PingError
  | HostnameNotFound
  | HostUnreachable
  | PermissionDenied
  | Timeout
  | UnknownError
  deriving DecidableEq

/-- Embedding of `PingResult.determineErrorFromOutput`: lowercase the combined
output and test fixed substrings in a fixed order, first match wins. -/
def determineErrorFromOutput (output : String) : PingError :=
  let lower := jsToLower output
  if jsIncludes lower "unknown host" || jsIncludes lower "name or service not known" then
    PingError.HostnameNotFound
  else if jsIncludes lower "no route to host" || jsIncludes lower "host unreachable" then
    PingError.HostUnreachable
  else if jsIncludes lower "permission denied" then
    PingError.PermissionDenied
  else if jsIncludes lower "timeout" || jsIncludes lower "timed out" then
    PingError.Timeout
  else
    PingError.UnknownError

/-- JavaScript `Math.round`: round half toward positive infinity. -/
def jsMathRound (q : ℚ) : ℤ := ⌊q + 1 / 2⌋

/-- Embedding of `PingResult.calculatePacketLossPercentage`. -/
def calculatePacketLossPercentage (transmitted received : ℕ) : ℤ :=
  if transmitted = 0 then 100
  else jsMathRound ((((transmitted : ℚ) - (received : ℚ)) / (transmitted : ℚ)) * 100)

/-- One parsed reply line (`PingResultLine`): raw text and extracted time. -/
structure PingResultLine where
  rawLine : String
  timeInMs : ℚ
  deriving DecidableEq

/-- Field record of a `PingResult` instance (`PingResultData` in ping-result.ts). -/
structure PingResultData where
  success : Bool
  error : Option PingError
  host : Option String
  packetLossPercentage : ℤ
  numberOfPacketsTransmitted : Option ℕ
  numberOfPacketsReceived : Option ℕ
  timeoutInSeconds : Option ℚ
  intervalInSeconds : ℚ
  packetSizeInBytes : ℕ
  ttl : ℕ
  minimumTimeInMs : Option ℚ
  maximumTimeInMs : Option ℚ
  averageTimeInMs : Option ℚ
  standardDeviationTimeInMs : Option ℚ
  rawOutput : String
  lines : List PingResultLine
  deriving DecidableEq

/-- Argument record of `PingResult.fromPingOutput` (`PingResultOptions`). -/
structure PingResultOptions where
  output : List String
  returnCode : ℤ
  host : String
  timeout : ℚ
  interval : ℚ
  packetSize : ℕ
  ttl : ℕ

/-- Outcome of the three regular-expression extractions performed by
`fromPingOutput` on the combined output, treated as an interface input:
`packetStats` is the `(transmitted, received)` capture of the
packet-statistics pattern, `timing` the `(min, avg, max, stddev)` capture of
the summary-timing pattern, `lossFallback` the `N` capture of the
looser `N% loss` pattern. -/
structure PingMatches where
  packetStats : Option (ℕ × ℕ)
  timing : Option (ℚ × ℚ × ℚ × ℚ)
  lossFallback : Option ℕ

/-- Embedding of `PingResult.fromPingOutput`.  `parsedLines` stands for the
result of `parsePingLines` on the output (a per-line regular-expression
scan, again treated as an interface input). -/
def fromPingOutput (opts : PingResultOptions) (m : PingMatches)
    (parsedLines : List PingResultLine) : PingResultData :=
  let rawOutput := String.intercalate "\n" opts.output
  if opts.returnCode ≠ 0 then
    { success := false
      error := some (determineErrorFromOutput rawOutput)
      host := some opts.host
      packetLossPercentage := 100
      numberOfPacketsTransmitted := none
      numberOfPacketsReceived := none
      timeoutInSeconds := some opts.timeout
      intervalInSeconds := opts.interval
      packetSizeInBytes := opts.packetSize
      ttl := opts.ttl
      minimumTimeInMs := none
      maximumTimeInMs := none
      averageTimeInMs := none
      standardDeviationTimeInMs := none
      rawOutput := rawOutput
      lines := [] }
  else
    let stats : ℤ × Option ℕ × Option ℕ :=
      match m.packetStats with
      | some (t, r) => (calculatePacketLossPercentage t r, some t, some r)
      | none =>
        match m.lossFallback with
        | some n => ((n : ℤ), none, none)
        | none => (0, none, none)
    let timings : Option ℚ × Option ℚ × Option ℚ × Option ℚ :=
      match m.timing with
      | some (mn, av, mx, sd) => (some mn, some av, some mx, some sd)
      | none => (none, none, none, none)
    { success := decide (stats.1 < 100)
      error := none
      host := some opts.host
      packetLossPercentage := stats.1
      numberOfPacketsTransmitted := stats.2.1
      numberOfPacketsReceived := stats.2.2
      timeoutInSeconds := some opts.timeout
      intervalInSeconds := opts.interval
      packetSizeInBytes := opts.packetSize
      ttl := opts.ttl
      minimumTimeInMs := timings.1
      maximumTimeInMs := timings.2.1
      averageTimeInMs := timings.2.2.1
      standardDeviationTimeInMs := timings.2.2.2
      rawOutput := rawOutput
      lines := parsedLines }

/-- Embedding of `PingResult.averageResponseTimeInMs`. -/
def averageResponseTimeInMs (r : PingResultData) : ℚ :=
  match r.averageTimeInMs with
  | some a => a
  | none =>
    if r.lines.length = 0 then 0
    else ((r.lines.map PingResultLine.timeInMs).sum) / (r.lines.length : ℚ)

/-- The `result.status ?? 1` normalization applied by `run` and `runAsync`:
an absent exit status (killed process) is reported as return code 1. -/
def returnCodeOfStatus (status : Option ℤ) : ℤ := status.getD 1

/-- Configuration fields of the `Ping` class, in constructor order. -/
structure Ping where
  hostname : String
  timeoutInSeconds : ℚ
  count : ℚ
  intervalInSeconds : ℚ
  packetSizeInBytes : ℕ
  ttl : ℕ

/-- Embedding of `Ping.calculateProcessTimeout`:
`Math.ceil(count * (timeoutInSeconds + intervalInSeconds)) + 5`. -/
def calculateProcessTimeout (p : Ping) : ℤ :=
  ⌈p.count * (p.timeoutInSeconds + p.intervalInSeconds)⌉ + 5

/-- The temporary one-attempt `Ping` instance built by `Ping.runSinglePing`
for each streaming attempt: everything is inherited except `count`, which is
always 1. -/
def runSinglePingConfig (p : Ping) : Ping :=
  { hostname := p.hostname
    timeoutInSeconds := p.timeoutInSeconds
    count := 1
    intervalInSeconds := p.intervalInSeconds
    packetSizeInBytes := p.packetSizeInBytes
    ttl := p.ttl }

/-- Normalized outcome of one external process execution
(the `SpawnSyncReturns`-shaped object assembled by the runner). -/
structure SpawnOutcome where
  stdout : String
  stderr : String
  status : Option ℤ

/-- Embedding of `Ping.combineOutputLines`: split both captured texts on
newlines and drop empty lines. -/
def combineOutputLines (res : SpawnOutcome) : List String :=
  ((res.stdout.splitOn "\n") ++ (res.stderr.splitOn "\n")).filter (fun l => l != "")

/-- Embedding of `Ping.executePingCommandAsync` at its decision points, with
the spawn primitive abstracted: the second component counts process spawns.
An empty command rejects; an already-triggered cancellation handle rejects
before any spawn; otherwise the child runs and its outcome is resolved. -/
def executePingCommandAsyncModel (aborted : Bool) (commandArray : List String)
    (outcome : SpawnOutcome) : Except String SpawnOutcome × ℕ :=
  match commandArray.head? with
  | none => (Except.error "No command specified", 0)
  | some _ =>
    if aborted then (Except.error "Operation was aborted", 0)
    else (Except.ok outcome, 1)

/-- Embedding of `Ping.runAsync`: reject with the aborted error before
building or running the command when the cancellation handle is already
triggered; otherwise execute and parse.  The second component counts
process spawns. -/
def runAsyncModel (p : Ping) (aborted : Bool) (commandArray : List String)
    (outcome : SpawnOutcome) (m : PingMatches)
    (parsedLines : List PingResultLine) : Except String PingResultData × ℕ :=
  if aborted then (Except.error "Operation was aborted", 0)
  else
    match executePingCommandAsyncModel aborted commandArray outcome with
    | (Except.error e, n) => (Except.error e, n)
    | (Except.ok res, n) =>
      (Except.ok (fromPingOutput
        { output := combineOutputLines res
          returnCode := returnCodeOfStatus res.status
          host := p.hostname
          timeout := p.timeoutInSeconds
          interval := p.intervalInSeconds
          packetSize := p.packetSizeInBytes
          ttl := p.ttl } m parsedLines), n)

/-- How the attempt pipeline of one `stream()` iteration ends: a parsed
result, or a thrown error (`isAbortError` tells whether its message is
the aborted-operation message). -/
inductive AttemptOutcome
  | ok (resultId : ℕ)
  | err (isAbortError : Bool) (errorId : ℕ)

/-- One element yielded by `stream()`: a pipeline result, or the failure
result synthesized from a caught error via `PingResult.fromError`. -/
inductive StreamEmission
  | result (resultId : ℕ)
  | synthesized (errorId : ℕ)
  deriving DecidableEq

/-- Embedding of the `Ping.stream` loop.  Iteration `seq` checks the abort
flag, issues attempt `seq` (incrementing the sequence number before the
attempt can throw, as `runSinglePing(sequenceNumber++)` does), yields the
result, and breaks when the count is finite and reached; a thrown attempt
is caught and a synthesized failure is yielded in its place, after which
the loop continues directly — the count check sits in the `try` block only.
`fuel` bounds the number of iterations; `none` means the loop was still
running when the fuel ran out. -/
def streamRun (aborted : ℕ → Bool) (count : ℕ) (attempts : ℕ → AttemptOutcome) :
    ℕ → ℕ → Option (List StreamEmission)
  | 0, _ => none
  | fuel + 1, seq =>
    if aborted seq then some []
    else
      match attempts seq with
      | AttemptOutcome.ok r =>
        if count ≠ 0 ∧ seq + 1 ≥ count then some [StreamEmission.result r]
        else
          match streamRun aborted count attempts fuel (seq + 1) with
          | none => none
          | some rest => some (StreamEmission.result r :: rest)
      | AttemptOutcome.err isAbort e =>
        if isAbort then some []
        else
          match streamRun aborted count attempts fuel (seq + 1) with
          | none => none
          | some rest => some (StreamEmission.synthesized e :: rest)

/-- Observable events driving `PingStream.batchWithTimeout`: an upstream
result arrives, or the pending batch timer fires. -/
inductive BWTEvent
  | arrival (resultId : ℕ)
  | timerFire

/-- State of `batchWithTimeout` between events: the buffered batch and
whether a batch timer is pending. -/
structure BWTState where
  batch : List ℕ
  timerActive : Bool

/-- Embedding of one event-handler execution of `batchWithTimeout`.
On arrival the result is pushed; a full batch is yielded and the timer
cancelled; otherwise, when the batch just became non-empty, the timer is
(re)armed.  When the timer fires, the callback runs `yieldBatch()`, which
empties the buffer and returns the copy — but the generator cannot yield
from the timer callback, so the copy is discarded and nothing is emitted. -/
def bwtStep (batchSize : ℕ) (st : BWTState) : BWTEvent → BWTState × List (List ℕ)
  | BWTEvent.arrival r =>
    let grown := st.batch ++ [r]
    if grown.length ≥ batchSize then
      ({ batch := [], timerActive := false }, [grown])
    else if grown.length = 1 then
      ({ batch := grown, timerActive := true }, [])
    else
      ({ batch := grown, timerActive := st.timerActive }, [])
  | BWTEvent.timerFire =>
    if st.timerActive then ({ batch := [], timerActive := false }, [])
    else (st, [])

/-- Folds `bwtStep` over the event sequence; on upstream completion any
non-empty remainder is yielded as a final batch. -/
def bwtRunAux (batchSize : ℕ) : BWTState → List BWTEvent → List (List ℕ)
  | st, [] => if st.batch.isEmpty then [] else [st.batch]
  | st, e :: es =>
    let next := bwtStep batchSize st e
    next.2 ++ bwtRunAux batchSize next.1 es

/-- All batches emitted by `PingStream.batchWithTimeout(batchSize, ·)` over
a finite observable event sequence, starting from the empty buffer. -/
def batchWithTimeoutRun (batchSize : ℕ) (events : List BWTEvent) : List (List ℕ) :=
  bwtRunAux batchSize { batch := [], timerActive := false } events

/-- Claim C2: error classification over the lowercased combined output is
first-match-wins in the fixed order; in particular any text whose lowercased
form contains both the substring "unknown host" and the substring "timeout"
classifies as `HostnameNotFound`, never as `Timeout`. -/
theorem determineError_unknownHost_beats_timeout (s : String)
    (h : jsIncludes (jsToLower s) "unknown host" = true)
    (_ht : jsIncludes (jsToLower s) "timeout" = true) :
    determineErrorFromOutput s = PingError.HostnameNotFound ∧
      determineErrorFromOutput s ≠ PingError.Timeout := by
  simp [determineErrorFromOutput, h]

/-- Witness for C2 at a concrete output text containing both substrings. -/
theorem determineError_unknownHost_beats_timeout_witness :
    determineErrorFromOutput "ping: UNKNOWN Host example.com: request Timeout" =
        PingError.HostnameNotFound ∧
      determineErrorFromOutput "ping: UNKNOWN Host example.com: request Timeout" ≠
        PingError.Timeout :=
  determineError_unknownHost_beats_timeout
    "ping: UNKNOWN Host example.com: request Timeout" (by decide) (by decide)

/-- Claim C3: for every extracted pair of packet counts, the packet-loss
percentage is `round(((transmitted - received) / transmitted) * 100)` when
`transmitted > 0`, and 100 when `transmitted = 0`. -/
theorem calculatePacketLoss_formula (transmitted received : ℕ) :
    calculatePacketLossPercentage transmitted received =
      if transmitted = 0 then 100
      else round ((((transmitted : ℚ) - (received : ℚ)) / (transmitted : ℚ)) * 100) := by
  unfold calculatePacketLossPercentage jsMathRound
  split
  · rfl
  · rw [round_eq]

/-- Claim C6: `averageResponseTimeInMs` is total; it returns the parsed
summary average exactly when present, otherwise the arithmetic mean of the
per-reply-line times when there is at least one line, otherwise 0. -/
theorem averageResponseTime_cases (r : PingResultData) (a : ℚ)
    (x : PingResultLine) (xs : List PingResultLine) :
    averageResponseTimeInMs { r with averageTimeInMs := some a } = a ∧
      averageResponseTimeInMs { r with averageTimeInMs := none, lines := x :: xs } =
        ((x :: xs).map PingResultLine.timeInMs).sum / (((x :: xs).length : ℕ) : ℚ) ∧
      averageResponseTimeInMs
          { r with averageTimeInMs := none, lines := ([] : List PingResultLine) } = 0 := by
  refine ⟨rfl, ?_, rfl⟩
  simp [averageResponseTimeInMs]

/-- Claim C7: the process timeout is
`ceil(count * (timeoutInSeconds + intervalInSeconds)) + 5`; the three
reference instances evaluate to 11, 23 and 12; and every per-attempt
instance built by the streaming layer has count 1, so its timeout is the
count-independent `ceil(timeout + interval) + 5`. -/
theorem calculateProcessTimeout_spec :
    (∀ p : Ping, calculateProcessTimeout p =
        ⌈p.count * (p.timeoutInSeconds + p.intervalInSeconds)⌉ + 5) ∧
      calculateProcessTimeout ⟨"example.com", 5, 1, 1, 56, 64⟩ = 11 ∧
      calculateProcessTimeout ⟨"example.com", 5, 3, 1, 56, 64⟩ = 23 ∧
      calculateProcessTimeout ⟨"example.com", 3, 2, 1 / 2, 56, 64⟩ = 12 ∧
      (∀ p : Ping, (runSinglePingConfig p).count = 1 ∧
        calculateProcessTimeout (runSinglePingConfig p) =
          ⌈p.timeoutInSeconds + p.intervalInSeconds⌉ + 5) := by
  refine ⟨fun p => rfl, ?_, ?_, ?_, fun p => ⟨rfl, ?_⟩⟩
  · show (⌈(1 : ℚ) * (5 + 1)⌉ + 5 : ℤ) = 11
    norm_num
  · show (⌈(3 : ℚ) * (5 + 1)⌉ + 5 : ℤ) = 23
    norm_num
  · show (⌈(2 : ℚ) * (3 + 1 / 2)⌉ + 5 : ℤ) = 12
    norm_num
  · show (⌈(1 : ℚ) * (p.timeoutInSeconds + p.intervalInSeconds)⌉ + 5 : ℤ) =
      ⌈p.timeoutInSeconds + p.intervalInSeconds⌉ + 5
    rw [one_mul]

/-- Claim C9: when the cancellation handle is already triggered before a
single-shot asynchronous run begins, `runAsync` rejects with the
distinguishable aborted error and no process spawn occurs. -/
theorem runAsync_aborted_rejects_without_spawn (p : Ping)
    (commandArray : List String) (outcome : SpawnOutcome) (m : PingMatches)
    (parsedLines : List PingResultLine) :
    runAsyncModel p true commandArray outcome m parsedLines =
      (Except.error "Operation was aborted", 0) := rfl

/-- Claim C1 (code behavior at the failing input): with batch size 2, after
one upstream result is buffered and the batch timer fires, `batchWithTimeout`
emits nothing at all — the timer callback discards the buffered partial
batch instead of emitting it; without the timer firing, the same single
buffered result is flushed as a final batch on upstream completion. -/
theorem batchWithTimeout_timer_drops_batch :
    batchWithTimeoutRun 2 [BWTEvent.arrival 7, BWTEvent.timerFire] = [] ∧
      batchWithTimeoutRun 2 [BWTEvent.arrival 7] = [[7]] := ⟨rfl, rfl⟩

/-- Claim C4: for every zero-exit-status parse, the result is tagged success
if and only if the computed packet-loss percentage is strictly below 100. -/
theorem zeroExit_success_iff_loss_lt_100 (output : List String) (host : String)
    (timeout interval : ℚ) (packetSize ttl : ℕ) (m : PingMatches)
    (parsedLines : List PingResultLine) :
    (fromPingOutput ⟨output, 0, host, timeout, interval, packetSize, ttl⟩ m
        parsedLines).success = true ↔
      (fromPingOutput ⟨output, 0, host, timeout, interval, packetSize, ttl⟩ m
        parsedLines).packetLossPercentage < 100 := by
  obtain ⟨ps, tm, fb⟩ := m
  cases ps with
  | some p =>
    obtain ⟨t, r⟩ := p
    simp [fromPingOutput]
  | none =>
    cases fb <;> simp [fromPingOutput]

/-- Claim C5: for every parse whose exit status is non-zero or absent, the
result is the failure record: not success, packet loss exactly 100, all four
round-trip-time fields absent, no parsed lines, and the error kind classified
from the combined output attached. -/
theorem nonzeroExit_failure_shape (status : Option ℤ) (output : List String)
    (host : String) (timeout interval : ℚ) (packetSize ttl : ℕ)
    (m : PingMatches) (parsedLines : List PingResultLine)
    (h : status ≠ some 0) :
    fromPingOutput ⟨output, returnCodeOfStatus status, host, timeout, interval,
        packetSize, ttl⟩ m parsedLines =
      { success := false
        error := some (determineErrorFromOutput (String.intercalate "\n" output))
        host := some host
        packetLossPercentage := 100
        numberOfPacketsTransmitted := none
        numberOfPacketsReceived := none
        timeoutInSeconds := some timeout
        intervalInSeconds := interval
        packetSizeInBytes := packetSize
        ttl := ttl
        minimumTimeInMs := none
        maximumTimeInMs := none
        averageTimeInMs := none
        standardDeviationTimeInMs := none
        rawOutput := String.intercalate "\n" output
        lines := [] } := by
  have hrc : returnCodeOfStatus status ≠ 0 := by
    cases status with
    | none => simp [returnCodeOfStatus]
    | some z =>
      simp only [returnCodeOfStatus, Option.getD_some]
      intro hz
      exact h (by rw [hz])
  simp [fromPingOutput, hrc]

/-- Witness for C5 at a concrete killed-process outcome (absent status). -/
theorem nonzeroExit_failure_shape_witness :
    fromPingOutput ⟨["Request timed out"], returnCodeOfStatus none, "example.com",
        5, 1, 56, 64⟩ ⟨none, none, none⟩ [] =
      { success := false
        error := some (determineErrorFromOutput
          (String.intercalate "\n" ["Request timed out"]))
        host := some "example.com"
        packetLossPercentage := 100
        numberOfPacketsTransmitted := none
        numberOfPacketsReceived := none
        timeoutInSeconds := some 5
        intervalInSeconds := 1
        packetSizeInBytes := 56
        ttl := 64
        minimumTimeInMs := none
        maximumTimeInMs := none
        averageTimeInMs := none
        standardDeviationTimeInMs := none
        rawOutput := String.intercalate "\n" ["Request timed out"]
        lines := [] } :=
  nonzeroExit_failure_shape none ["Request timed out"] "example.com" 5 1 56 64
    ⟨none, none, none⟩ [] (by decide)

/-- Claim C10: a zero-exit-status parse whose output matches neither the
packet-statistics pattern nor the loss-fallback pattern is reported as a
success with packet loss 0 and with both packet counts absent. -/
theorem zeroExit_unparseable_reports_clean_success (output : List String)
    (host : String) (timeout interval : ℚ) (packetSize ttl : ℕ)
    (timing : Option (ℚ × ℚ × ℚ × ℚ)) (parsedLines : List PingResultLine) :
    (fromPingOutput ⟨output, 0, host, timeout, interval, packetSize, ttl⟩
        ⟨none, timing, none⟩ parsedLines).success = true ∧
      (fromPingOutput ⟨output, 0, host, timeout, interval, packetSize, ttl⟩
        ⟨none, timing, none⟩ parsedLines).packetLossPercentage = 0 ∧
      (fromPingOutput ⟨output, 0, host, timeout, interval, packetSize, ttl⟩
        ⟨none, timing, none⟩ parsedLines).numberOfPacketsTransmitted = none ∧
      (fromPingOutput ⟨output, 0, host, timeout, interval, packetSize, ttl⟩
        ⟨none, timing, none⟩ parsedLines).numberOfPacketsReceived = none := by
  refine ⟨?_, ?_, ?_, ?_⟩ <;> simp [fromPingOutput]

/-- Claim C8 counterexample: with attempt count 1, a first attempt whose
pipeline throws makes the loop yield the synthesized failure and then skip
the count check, so a second attempt runs and the stream yields two
emissions instead of exactly one. -/
theorem stream_count_counterexample :
    streamRun (fun _ => false) 1
        (fun n => if n = 0 then AttemptOutcome.err false 0 else AttemptOutcome.ok n)
        2 0 =
      some [StreamEmission.synthesized 0, StreamEmission.result 1] ∧
      ¬ (streamRun (fun _ => false) 1
          (fun n => if n = 0 then AttemptOutcome.err false 0 else AttemptOutcome.ok n)
          2 0).map List.length = some 1 := by
  exact ⟨rfl, by decide⟩

/-- Claim C8 (amended): for every finite attempt count `c ≥ 1` with no
cancellation and no attempt throwing, the stream loop terminates after
yielding exactly `c` results (fuel `c` suffices). -/
theorem stream_finite_count_emits_exactly (c : ℕ) (attempts : ℕ → AttemptOutcome)
    (hc : 1 ≤ c) (hok : ∀ n, ∃ r, attempts n = AttemptOutcome.ok r) :
    ∃ l, streamRun (fun _ => false) c attempts c 0 = some l ∧ l.length = c := by
  suffices h : ∀ k seq, 1 ≤ k → seq + k = c →
      ∃ l, streamRun (fun _ => false) c attempts k seq = some l ∧ l.length = k by
    exact h c 0 hc (by omega)
  intro k
  induction k with
  | zero => intro seq h1 _; omega
  | succ k ih =>
    intro seq _ hsum
    obtain ⟨r, hr⟩ := hok seq
    by_cases hk : k = 0
    · subst hk
      refine ⟨[StreamEmission.result r], ?_, rfl⟩
      have hcond : c ≠ 0 ∧ seq + 1 ≥ c := by omega
      simp [streamRun, hr, hcond]
    · have hcond : ¬(c ≠ 0 ∧ seq + 1 ≥ c) := by omega
      obtain ⟨rest, hrest, hlen⟩ := ih (seq + 1) (by omega) (by omega)
      refine ⟨StreamEmission.result r :: rest, ?_, by simp [hlen]⟩
      simp [streamRun, hr, hcond, hrest]

/-- Witness for C8 (amended) at count 2 with two non-throwing attempts. -/
theorem stream_finite_count_emits_exactly_witness :
    ∃ l, streamRun (fun _ => false) 2 (fun n => AttemptOutcome.ok n) 2 0 = some l ∧
      l.length = 2 :=
  stream_finite_count_emits_exactly 2 (fun n => AttemptOutcome.ok n) (by decide)
    (fun n => ⟨n, rfl⟩)

end TsPing
